import Mathlib

/-!
Verification of the statistical comparison and scoring engine of the
agent-eval harness, shallowly embedded in Lean 4.

Conventions of the embedding:
* Python floats are modelled as rationals (`ℚ`); float rounding is ignored,
  and Python's total-with-exception division is modelled by Lean's total
  division on `ℚ` at the few spots the source guards against zero anyway.
* External collaborators (the scipy Mann-Whitney test `stats.mannwhitneyu`,
  the normal quantile `stats.norm.ppf`, the float square root, the
  subprocess runner and the LLM judge) are passed in as oracle parameters:
  the source calls them as black boxes and the claims hold for every
  oracle, so the theorems quantify over them.
* Python strings are Lean `String`s; `str.startswith` and the substring
  operator `in` are modelled as prefix / infix relations on the underlying
  character lists.
-/

set_option maxRecDepth 4000

namespace Harness

/-- One evaluation run (`harness.models.EvalResult`), restricted to the
fields the statistical core reads: grouping key fields, the pass flag, the
overall score, token usage (`trace.usage`) and wall-clock duration. -/
structure EvalResult where
  task_id : String
  config_name : String
  model : String
  passed : Bool
  overall_score : ℚ
  input_tokens : ℕ
  output_tokens : ℕ
  duration_seconds : ℚ
  deriving DecidableEq, Repr

/-- `TokenUsage.total_tokens`: input plus output tokens. -/
def EvalResult.total_tokens (r : EvalResult) : ℕ :=
  r.input_tokens + r.output_tokens

/-- `CostMetrics` (`harness.models.CostMetrics`). -/
structure CostMetrics where
  input_cost_usd : ℚ
  output_cost_usd : ℚ
  total_cost_usd : ℚ
  deriving DecidableEq, Repr

/-- `CostMetrics.from_usage` with the default per-million-token prices
(3.0 input / 15.0 output). -/
def CostMetrics.from_usage (input_tokens output_tokens : ℕ) : CostMetrics :=
  let input_cost : ℚ := input_tokens / 1000000 * 3
  let output_cost : ℚ := output_tokens / 1000000 * 15
  { input_cost_usd := input_cost
    output_cost_usd := output_cost
    total_cost_usd := input_cost + output_cost }

/-- `StatisticalAnalyzer.pass_at_k_unbiased`.  `n`, `c` and the shortcut
branches follow the source; the final `try/except` fallback of the source
is unreachable for a natural-number `k` because `math.comb` only raises on
negative arguments, so it is not represented. -/
def pass_at_k_unbiased (results : List EvalResult) (k : ℕ) : ℚ :=
  let n := results.length
  let c := (results.filter (fun r => r.passed)).length
  if n = 0 then 0
  else if k > n then (c : ℚ) / (n : ℚ)
  else if c = n then 1
  else if c = 0 then 0
  else
    let numerator := Nat.choose (n - c) k
    let denominator := Nat.choose n k
    if denominator = 0 then 0
    else 1 - (numerator : ℚ) / (denominator : ℚ)

/-- Round a rational to the nearest integer with ties to even, the
rounding used by Python's fixed-point string formatting. -/
def roundHalfEven (q : ℚ) : ℤ :=
  let f := ⌊q⌋
  let r := q - (f : ℚ)
  if r < 1/2 then f
  else if r > 1/2 then f + 1
  else if f % 2 = 0 then f else f + 1

/-- The decimal digit character for `n < 10`. -/
def digitChar (n : ℕ) : Char := Char.ofNat (48 + n)

/-- Decimal digit characters of a natural number (most significant first). -/
def natChars (n : ℕ) : List Char :=
  if _h : n < 10 then [digitChar n]
  else natChars (n / 10) ++ [digitChar (n % 10)]
  decreasing_by exact Nat.div_lt_self (by omega) (by omega)

/-- Decimal characters of an integer. -/
def intChars (z : ℤ) : List Char :=
  if z < 0 then '-' :: natChars z.natAbs else natChars z.natAbs

/-- Python string formatting with format spec `.0f`. -/
def fmt0 (q : ℚ) : String := ⟨intChars (roundHalfEven q)⟩

/-- Zero-padding of a natural number below 1000 to three digits. -/
def pad3 (n : ℕ) : String :=
  if n < 10 then "00" ++ ⟨natChars n⟩
  else if n < 100 then "0" ++ ⟨natChars n⟩
  else ⟨natChars n⟩

/-- Python string formatting with format spec `.3f`. -/
def fmt3 (q : ℚ) : String :=
  let m := roundHalfEven (q * 1000)
  let sign := if m < 0 then "-" else ""
  sign ++ (⟨natChars (m.natAbs / 1000)⟩ : String) ++ "." ++ pad3 (m.natAbs % 1000)

/-- Python string formatting with format spec `.0%`. -/
def fmtPct0 (q : ℚ) : String := fmt0 (q * 100) ++ "%"

/-- `np.mean` of a list of rationals; numpy yields NaN on an empty list,
modelled here by Lean's total division giving 0 (no claim reads it). -/
def listMean (xs : List ℚ) : ℚ := xs.sum / (xs.length : ℚ)

/-- `np.var(xs, ddof=1)`: the sample variance. -/
def listVar (xs : List ℚ) : ℚ :=
  (xs.map (fun x => (x - listMean xs) ^ 2)).sum / ((xs.length : ℚ) - 1)

/-- Effect size thresholds on Cohen's d (`StatisticalAnalyzer`). -/
def EFFECT_NEGLIGIBLE : ℚ := 1/5

/-- Cohen's d threshold below which the effect is "small". -/
def EFFECT_SMALL : ℚ := 1/2

/-- Cohen's d threshold below which the effect is "medium". -/
def EFFECT_MEDIUM : ℚ := 4/5

/-- `ComparisonResult` (`harness.statistics.ComparisonResult`). -/
structure ComparisonResult where
  mean_a : ℚ
  mean_b : ℚ
  n_a : ℕ
  n_b : ℕ
  statistic : ℚ
  p_value : ℚ
  is_significant : Bool
  effect_size : ℚ
  effect_magnitude : String
  delta : ℚ
  relative_change : ℚ
  recommendation : String
  deriving DecidableEq, Repr

/-- `StatisticalAnalyzer._generate_recommendation`: the decision table
turning sample size, significance and effect magnitude into text. -/
def generate_recommendation (delta p_value : ℚ) (effect_magnitude : String)
    (is_significant : Bool) (n_a n_b : ℕ) : String :=
  let min_n := min n_a n_b
  if min_n < 5 then
    "Sample size too small (n=" ++ (⟨natChars min_n⟩ : String) ++ "). " ++
      "Collect at least 5 runs per configuration for reliable comparison."
  else if ¬ is_significant then
    if min_n < 10 then
      "No significant difference detected (p=" ++ fmt3 p_value ++ "). " ++
        "Consider increasing sample size for more statistical power."
    else
      "No significant difference detected (p=" ++ fmt3 p_value ++ "). " ++
        "The configurations appear equivalent."
  else
    let direction := if delta > 0 then "improvement" else "regression"
    if effect_magnitude = "negligible" then
      "Statistically significant but negligible " ++ direction ++
        " (p=" ++ fmt3 p_value ++ ", d=" ++ effect_magnitude ++ "). " ++
        "The practical difference is minimal."
    else if effect_magnitude = "small" then
      "Statistically significant small " ++ direction ++
        " (p=" ++ fmt3 p_value ++ ", d=" ++ effect_magnitude ++ "). " ++
        "Consider whether this is practically meaningful."
    else if effect_magnitude = "medium" then
      "Significant medium " ++ direction ++ " detected" ++
        " (p=" ++ fmt3 p_value ++ ", d=" ++ effect_magnitude ++ "). " ++
        "This is a meaningful difference."
    else
      "Significant large " ++ direction ++ " detected" ++
        " (p=" ++ fmt3 p_value ++ ", d=" ++ effect_magnitude ++ "). " ++
        "This is a substantial difference."

/-- `StatisticalAnalyzer.compare_configs`.  The scipy call
`stats.mannwhitneyu(scores_a, scores_b, alternative="two-sided")` is an
external collaborator and is passed in as the oracle `mw` returning the
pair (statistic, p-value); `np.sqrt` is the oracle `sqrtQ`. -/
def compare_configs (mw : List ℚ → List ℚ → ℚ × ℚ) (sqrtQ : ℚ → ℚ)
    (alpha : ℚ) (results_a results_b : List EvalResult) : ComparisonResult :=
  let scores_a := results_a.map (fun r => r.overall_score)
  let scores_b := results_b.map (fun r => r.overall_score)
  let n_a := scores_a.length
  let n_b := scores_b.length
  let mean_a := listMean scores_a
  let mean_b := listMean scores_b
  let delta := mean_b - mean_a
  if n_a < 2 ∨ n_b < 2 then
    { mean_a := mean_a
      mean_b := mean_b
      n_a := n_a
      n_b := n_b
      statistic := 0
      p_value := 1
      is_significant := false
      effect_size := 0
      effect_magnitude := "negligible"
      delta := delta
      relative_change := 0
      recommendation :=
        "Insufficient samples for statistical comparison (need at least 2 per group)." }
  else
    let sp := mw scores_a scores_b
    let statistic := sp.1
    let p_value := sp.2
    let pooled_std := sqrtQ
      ((((n_a : ℚ) - 1) * listVar scores_a + ((n_b : ℚ) - 1) * listVar scores_b) /
        ((n_a : ℚ) + (n_b : ℚ) - 2))
    let effect_size := if pooled_std > 0 then |delta| / pooled_std else 0
    let effect_magnitude :=
      if effect_size < EFFECT_NEGLIGIBLE then "negligible"
      else if effect_size < EFFECT_SMALL then "small"
      else if effect_size < EFFECT_MEDIUM then "medium"
      else "large"
    let is_significant := p_value < alpha
    let relative_change := if mean_a > 0 then delta / mean_a * 100 else 0
    { mean_a := mean_a
      mean_b := mean_b
      n_a := n_a
      n_b := n_b
      statistic := statistic
      p_value := p_value
      is_significant := is_significant
      effect_size := effect_size
      effect_magnitude := effect_magnitude
      delta := delta
      relative_change := relative_change
      recommendation :=
        generate_recommendation delta p_value effect_magnitude is_significant n_a n_b }

/-- `PowerAnalysisResult` (`harness.statistics.PowerAnalysisResult`). -/
structure PowerAnalysisResult where
  baseline_rate : ℚ
  min_detectable_effect : ℚ
  recommended_sample_size : ℤ
  power : ℚ
  alpha : ℚ
  notes : String
  deriving DecidableEq, Repr

/-- The numerator of the two-proportion sample-size formula in
`minimum_sample_size`, for given quantile and square-root oracles. -/
def sampleSizeNumerator (ppf sqrtQ : ℚ → ℚ) (baseline_rate alt_rate power alpha : ℚ) : ℚ :=
  let p_pooled := (baseline_rate + alt_rate) / 2
  let z_alpha := ppf (1 - alpha / 2)
  let z_power := ppf power
  (z_alpha * sqrtQ (2 * p_pooled * (1 - p_pooled)) +
    z_power * sqrtQ (baseline_rate * (1 - baseline_rate) + alt_rate * (1 - alt_rate))) ^ 2

/-- The clamped alternative rate of `minimum_sample_size`: the source
applies the two clamps in sequence. -/
def altRate (baseline_rate min_effect : ℚ) : ℚ :=
  let a := baseline_rate + min_effect
  let a := if a ≥ 1 then 99/100 else a
  if a ≤ 0 then 1/100 else a

/-- `StatisticalAnalyzer.minimum_sample_size`.  `stats.norm.ppf` and
`math.sqrt` are external numeric routines passed in as the oracles `ppf`
and `sqrtQ`; `int(np.ceil(x))` is the integer ceiling. -/
def minimum_sample_size (ppf sqrtQ : ℚ → ℚ)
    (baseline_rate min_effect power alpha : ℚ) : PowerAnalysisResult :=
  if ¬ (0 < baseline_rate ∧ baseline_rate < 1) then
    { baseline_rate := baseline_rate
      min_detectable_effect := min_effect
      recommended_sample_size := 30
      power := power
      alpha := alpha
      notes := "Invalid baseline rate. Using minimum sample size of 30." }
  else
    let alt_rate := altRate baseline_rate min_effect
    let numerator := sampleSizeNumerator ppf sqrtQ baseline_rate alt_rate power alpha
    let denominator := (baseline_rate - alt_rate) ^ 2
    if denominator = 0 then
      { baseline_rate := baseline_rate
        min_detectable_effect := min_effect
        recommended_sample_size := 30
        power := power
        alpha := alpha
        notes := "Effect size is 0. Using minimum sample size of 30." }
    else
      { baseline_rate := baseline_rate
        min_detectable_effect := min_effect
        recommended_sample_size := max ⌈numerator / denominator⌉ 5
        power := power
        alpha := alpha
        notes := "Sample size provides " ++ fmtPct0 power ++ " power to detect " ++
          fmtPct0 min_effect ++ " change." }

/-- `CodeCheckType` (`harness.models.CodeCheckType`). -/
inductive CodeCheckType where
  | tests_pass
  | file_contains
  | file_exists
  | file_not_contains
  | command_succeeds
  | ruff_clean
  | mypy_clean
  deriving DecidableEq, Repr

/-- The string value of a `CodeCheckType` enum member. -/
def CodeCheckType.value : CodeCheckType → String
  | .tests_pass => "tests_pass"
  | .file_contains => "file_contains"
  | .file_exists => "file_exists"
  | .file_not_contains => "file_not_contains"
  | .command_succeeds => "command_succeeds"
  | .ruff_clean => "ruff_clean"
  | .mypy_clean => "mypy_clean"

/-- `CodeAssertion` (`harness.models.CodeAssertion`). -/
structure CodeAssertion where
  check : CodeCheckType
  command : Option String
  file : Option String
  pattern : Option String
  deriving DecidableEq, Repr

/-- `LLMAssertion` (`harness.models.LLMAssertion`). -/
structure LLMAssertion where
  rubric : String
  passing_example : Option String
  failing_example : Option String
  borderline_example : Option String
  deriving DecidableEq, Repr

/-- An element of `Task.assertions`: either variant. -/
inductive Assertion where
  | code (a : CodeAssertion)
  | llm (a : LLMAssertion)
  deriving DecidableEq, Repr

/-- `TaskDifficulty` (`harness.models.TaskDifficulty`). -/
inductive TaskDifficulty where
  | easy
  | medium
  | hard
  deriving DecidableEq, Repr

/-- `Task` (`harness.models.Task`), restricted to the fields the composite
grader reads; `scoring` is the dict in insertion order. -/
structure Task where
  id : String
  difficulty : TaskDifficulty
  assertions : List Assertion
  scoring : List (String × ℚ)
  pass_threshold : Option ℚ
  deriving DecidableEq, Repr

/-- `Task.code_assertions`: the code-assertion sublist in order. -/
def Task.code_assertions (t : Task) : List CodeAssertion :=
  t.assertions.filterMap (fun a =>
    match a with
    | .code c => some c
    | .llm _ => none)

/-- `Task.llm_assertions`: the LLM-assertion sublist in order. -/
def Task.llm_assertions (t : Task) : List LLMAssertion :=
  t.assertions.filterMap (fun a =>
    match a with
    | .code _ => none
    | .llm l => some l)

/-- `GradeResult` (`harness.models.GradeResult`), restricted to the fields
the composite grader and the claims read; the free-text `details`,
`reasoning`, `full_output` and per-criterion fields are presentation-only
and not represented. -/
structure GradeResult where
  assertion_id : String
  assertion_type : String
  assertion_name : String
  passed : Bool
  score : ℚ
  deriving DecidableEq, Repr

/-- `DIFFICULTY_THRESHOLDS` (`harness.graders.composite_grader`); the
source is a dict covering all three enum members, so the `.get` default of
0.7 is unreachable. -/
def DIFFICULTY_THRESHOLDS : TaskDifficulty → ℚ
  | .easy => 17/20
  | .medium => 7/10
  | .hard => 11/20

/-- Python `s.startswith(pre)`: character-list prefix test. -/
def pyStartsWith (s pre : String) : Bool := pre.data.isPrefixOf s.data

/-- Python `sub in s` on strings: character-list substring test. -/
def pyIn (sub s : String) : Bool := decide (sub.data <:+: s.data)

/-- The weight the source's loop assigns a grade before the zero-default:
the first scoring entry whose key occurs in the grade's assertion id, else
0. -/
def findWeight (weights : List (String × ℚ)) (id : String) : ℚ :=
  match weights.find? (fun kw => pyIn kw.1 id) with
  | some kw => kw.2
  | none => 0

/-- The effective weight of a grade: an unmatched (or zero) weight falls
back to 1.0, as in the source loop. -/
def effWeight (weights : List (String × ℚ)) (g : GradeResult) : ℚ :=
  let w := findWeight weights g.assertion_id
  if w = 0 then 1 else w

/-- `CompositeGrader._calculate_weighted_score`. -/
def calculate_weighted_score (grades : List GradeResult)
    (weights : List (String × ℚ)) : ℚ :=
  if grades = [] then 0
  else if weights = [] then (grades.map (fun g => g.score)).sum / (grades.length : ℚ)
  else
    let total_weight := (grades.map (fun g => effWeight weights g)).sum
    let weighted_sum := (grades.map (fun g => g.score * effWeight weights g)).sum
    if total_weight > 0 then weighted_sum / total_weight else 0

/-- `CompositeGrader.grade`.  The code grader and the LLM judge are
external effectful collaborators (subprocesses and an API call), passed in
as the oracles `codeGrade` and `llmGrade` with the environment path and
trace folded in. -/
def composite_grade (codeGrade : CodeAssertion → GradeResult)
    (llmGrade : LLMAssertion → GradeResult) (task : Task) :
    List GradeResult × ℚ × Bool :=
  let code_graded := task.code_assertions.enum.map (fun ia =>
    { codeGrade ia.2 with
      assertion_id := "code_" ++ (toString ia.1 ++ "_" ++ ia.2.check.value) })
  let llm_graded := task.llm_assertions.enum.map (fun ia =>
    { llmGrade ia.2 with assertion_id := "llm_" ++ toString ia.1 })
  let grades := code_graded ++ llm_graded
  let overall_score := calculate_weighted_score grades task.scoring
  let threshold :=
    match task.pass_threshold with
    | some t => t
    | none => DIFFICULTY_THRESHOLDS task.difficulty
  let code_grades := grades.filter (fun g => pyStartsWith g.assertion_id "code_")
  let all_code_passed :=
    if code_grades = [] then true else code_grades.all (fun g => g.passed)
  let passed := decide (overall_score ≥ threshold) || all_code_passed
  (grades, overall_score, passed)

/-- The numeric value of a digit run (Python `int` on the captured group). -/
def digitsToNat (ds : List Char) : ℕ :=
  ds.foldl (fun acc c => 10 * acc + (c.toNat - 48)) 0

/-- One attempt of the regex `(\d+)\s+<word>` anchored at the head of `s`:
a nonempty maximal digit run, at least one whitespace character, then the
word literal.  Because digits, whitespace and the word's first letter are
pairwise disjoint character classes, the greedy quantifiers never give
characters back, so this is the exact regex semantics at one position. -/
def matchCountAt (word : List Char) (s : List Char) : Option ℕ :=
  let ds := s.takeWhile Char.isDigit
  if ds = [] then none
  else
    let t1 := s.dropWhile Char.isDigit
    if t1.takeWhile Char.isWhitespace = [] then none
    else if word.isPrefixOf (t1.dropWhile Char.isWhitespace) then
      some (digitsToNat ds)
    else none

/-- `re.search(r"(\d+)\s+<word>", s)`: the leftmost match, scanning every
start position from the left. -/
def searchCount (word : List Char) : List Char → Option ℕ
  | [] => none
  | c :: rest =>
    match matchCountAt word (c :: rest) with
    | some n => some n
    | none => searchCount word rest

/-- `CodeGrader.grade_tests_pass`, given the externally produced exit code
and combined stdout/stderr text of the test subprocess.  The timeout and
exception branches of the source wrap the external `subprocess.run` call
and return fixed failing grades; they are outside the claims and not
represented.  The free-text `details` field is omitted as in
`GradeResult`. -/
def grade_tests_pass (returncode : ℤ) (full_output : String)
    (pass_threshold : ℚ) : GradeResult :=
  let passed_count := (searchCount "passed".data full_output.data).getD 0
  let failed_count := (searchCount "failed".data full_output.data).getD 0
  let error_count := (searchCount "error".data full_output.data).getD 0
  let total_tests := passed_count + failed_count + error_count
  if 0 < total_tests then
    let score : ℚ := (passed_count : ℚ) / (total_tests : ℚ)
    let all_passed := decide (returncode = 0)
    let meets_threshold := decide (score ≥ pass_threshold)
    { assertion_id := "tests_pass", assertion_type := "code",
      assertion_name := "tests_pass",
      passed := all_passed || meets_threshold, score := score }
  else
    let passed := decide (returncode = 0)
    { assertion_id := "tests_pass", assertion_type := "code",
      assertion_name := "tests_pass",
      passed := passed, score := if passed then 1 else 0 }

/-- The grouping key of `reporter._group_results_by_key` with
`include_model=True`: (task_id, config_name, model). -/
def groupKey (r : EvalResult) : String × String × String :=
  (r.task_id, r.config_name, r.model)

/-- `grouped.get(key, [])` after `_group_results_by_key`: the sublist of
results carrying the key, in input order. -/
def groupGet (results : List EvalResult) (k : String × String × String) :
    List EvalResult :=
  results.filter (fun r => decide (groupKey r = k))

/-- `set(baseline_grouped) | set(current_grouped)`: every key present on
either side, each once.  The source iterates the set sorted; the order
only affects report ordering, which no claim constrains. -/
def allKeys (baseline current : List EvalResult) : List (String × String × String) :=
  ((baseline.map groupKey) ++ (current.map groupKey)).dedup

/-- `Reporter._calculate_metrics(results).pass_rate`, the only metrics
field `check_regression` reads, combined with the source's
`metrics.pass_rate if metrics else 0` guard for an absent side. -/
def calcPassRate (results : List EvalResult) : ℚ :=
  if results.length = 0 then 0
  else ((results.filter (fun r => r.passed)).length : ℚ) / (results.length : ℚ)

/-- One entry of the `comparisons` list of `check_regression`; the
statistical fields are present in the source dict exactly when a
comparison ran, modelled by the `Option`. -/
structure GroupComparison where
  task_id : String
  config : String
  model : String
  baseline_pass_rate : ℚ
  current_pass_rate : ℚ
  delta : ℚ
  stat : Option ComparisonResult
  deriving DecidableEq, Repr

/-- The comparison entry `check_regression` builds for one group key;
`compare_configs` runs (at its default alpha = 0.05) only when both sides
have results. -/
def mkGroupComparison (mw : List ℚ → List ℚ → ℚ × ℚ) (sqrtQ : ℚ → ℚ)
    (baseline current : List EvalResult) (k : String × String × String) :
    GroupComparison :=
  let baseline_results := groupGet baseline k
  let current_results := groupGet current k
  let baseline_rate := calcPassRate baseline_results
  let current_rate := calcPassRate current_results
  let stat :=
    if baseline_results ≠ [] ∧ current_results ≠ [] then
      some (compare_configs mw sqrtQ (1/20) baseline_results current_results)
    else none
  { task_id := k.1
    config := k.2.1
    model := k.2.2
    baseline_pass_rate := baseline_rate
    current_pass_rate := current_rate
    delta := current_rate - baseline_rate
    stat := stat }

/-- The source's per-group regression test: `delta < -threshold`, and the
significance requirement applies only when a statistical comparison was
computed (`if require_significance and stat_comparison`). -/
def isRegressionGroup (threshold : ℚ) (require_significance : Bool)
    (c : GroupComparison) : Bool :=
  let base := decide (c.delta < -threshold)
  match c.stat, require_significance with
  | some sc, true => base && sc.is_significant
  | _, _ => base

/-- The source's per-group improvement test, symmetric at
`delta > threshold`. -/
def isImprovementGroup (threshold : ℚ) (require_significance : Bool)
    (c : GroupComparison) : Bool :=
  let base := decide (c.delta > threshold)
  match c.stat, require_significance with
  | some sc, true => base && sc.is_significant
  | _, _ => base

/-- The report dict returned by `Reporter.check_regression`. -/
structure RegressionReport where
  has_regressions : Bool
  regression_count : ℕ
  improvement_count : ℕ
  threshold : ℚ
  require_significance : Bool
  regressions : List GroupComparison
  improvements : List GroupComparison
  comparisons : List GroupComparison
  deriving DecidableEq, Repr

/-- `Reporter.check_regression`.  The loop body appends each group to
`regressions` when the regression test holds, `elif` to `improvements`;
the filters reproduce the loop's classification in iteration order. -/
def check_regression (mw : List ℚ → List ℚ → ℚ × ℚ) (sqrtQ : ℚ → ℚ)
    (baseline current : List EvalResult) (threshold : ℚ)
    (require_significance : Bool) : Bool × RegressionReport :=
  let comps := (allKeys baseline current).map
    (mkGroupComparison mw sqrtQ baseline current)
  let regressions := comps.filter (isRegressionGroup threshold require_significance)
  let improvements := comps.filter (fun c =>
    !(isRegressionGroup threshold require_significance c) &&
      isImprovementGroup threshold require_significance c)
  let has_regressions := decide (0 < regressions.length)
  (has_regressions,
    { has_regressions := has_regressions
      regression_count := regressions.length
      improvement_count := improvements.length
      threshold := threshold
      require_significance := require_significance
      regressions := regressions
      improvements := improvements
      comparisons := comps })

/-- `EfficiencyComparison` (`harness.statistics.EfficiencyComparison`). -/
structure EfficiencyComparison where
  tokens_a_mean : ℚ
  tokens_b_mean : ℚ
  tokens_delta : ℚ
  tokens_delta_pct : ℚ
  duration_a_mean : ℚ
  duration_b_mean : ℚ
  duration_delta : ℚ
  duration_delta_pct : ℚ
  cost_a_mean : ℚ
  cost_b_mean : ℚ
  cost_delta : ℚ
  cost_delta_pct : ℚ
  tokens_p_value : Option ℚ
  duration_p_value : Option ℚ
  recommendation : String
  deriving DecidableEq, Repr

/-- Python `" ".join(parts)`. -/
def joinSpace : List String → String
  | [] => ""
  | [p] => p
  | p :: q :: rest => p ++ " " ++ joinSpace (q :: rest)

/-- The `sig_note` string of `_generate_efficiency_recommendation`. -/
def sigNote (sig : Bool) : String :=
  if sig then " (statistically significant)" else ""

/-- The token sentence appended by
`_generate_efficiency_recommendation` when `abs(tokens_delta_pct) > 10`. -/
def tokensPart (pct : ℚ) (sig : Bool) : String :=
  "B uses " ++ fmt0 |pct| ++ "% " ++ (if pct < 0 then "fewer" else "more") ++
    " tokens" ++ sigNote sig ++ "."

/-- The duration sentence appended by
`_generate_efficiency_recommendation` when `abs(duration_delta_pct) > 10`. -/
def durationPart (pct : ℚ) (sig : Bool) : String :=
  "B is " ++ fmt0 |pct| ++ "% " ++ (if pct < 0 then "faster" else "slower") ++
    sigNote sig ++ "."

/-- Whether an optional p-value is present and below 0.05, as in
`tokens_p_value is not None and tokens_p_value < 0.05`. -/
def pSignificant (p : Option ℚ) : Bool :=
  match p with
  | some v => decide (v < 1/20)
  | none => false

/-- `StatisticalAnalyzer._generate_efficiency_recommendation`. -/
def generate_efficiency_recommendation (tokens_delta_pct duration_delta_pct : ℚ)
    (tokens_p_value duration_p_value : Option ℚ) (n_a n_b : ℕ) : String :=
  let min_n := min n_a n_b
  if min_n < 2 then
    "Insufficient samples for efficiency comparison (need at least 2 per group)."
  else
    let tokens_sig := pSignificant tokens_p_value
    let parts1 : List String :=
      if |tokens_delta_pct| > 10 then [tokensPart tokens_delta_pct tokens_sig] else []
    let duration_sig := pSignificant duration_p_value
    let parts2 : List String :=
      parts1 ++
        (if |duration_delta_pct| > 10 then
          [durationPart duration_delta_pct duration_sig] else [])
    if parts2 = [] then
      "No significant efficiency differences detected between configurations."
    else
      let both_better := decide (tokens_delta_pct < -10 ∧ duration_delta_pct < -10)
      let both_worse := decide (tokens_delta_pct > 10 ∧ duration_delta_pct > 10)
      let parts3 :=
        if both_better then parts2 ++ ["B is more efficient overall."]
        else if both_worse then parts2 ++ ["B is less efficient overall."]
        else parts2
      joinSpace parts3

/-- `StatisticalAnalyzer.compare_efficiency`.  The two scipy
`stats.mannwhitneyu` calls are the oracle `mwP`; a `none` models the
caught `ValueError` of the source's `try/except`. -/
def compare_efficiency (mwP : List ℚ → List ℚ → Option ℚ)
    (results_a results_b : List EvalResult) : EfficiencyComparison :=
  let tokens_a := results_a.map (fun r => (r.total_tokens : ℚ))
  let tokens_b := results_b.map (fun r => (r.total_tokens : ℚ))
  let durations_a := results_a.map (fun r => r.duration_seconds)
  let durations_b := results_b.map (fun r => r.duration_seconds)
  let costs_a := results_a.map (fun r =>
    (CostMetrics.from_usage r.input_tokens r.output_tokens).total_cost_usd)
  let costs_b := results_b.map (fun r =>
    (CostMetrics.from_usage r.input_tokens r.output_tokens).total_cost_usd)
  let tokens_a_mean := if 0 < tokens_a.length then listMean tokens_a else 0
  let tokens_b_mean := if 0 < tokens_b.length then listMean tokens_b else 0
  let duration_a_mean := if 0 < durations_a.length then listMean durations_a else 0
  let duration_b_mean := if 0 < durations_b.length then listMean durations_b else 0
  let cost_a_mean := if 0 < costs_a.length then listMean costs_a else 0
  let cost_b_mean := if 0 < costs_b.length then listMean costs_b else 0
  let tokens_delta := tokens_b_mean - tokens_a_mean
  let tokens_delta_pct :=
    if 0 < tokens_a_mean then tokens_delta / tokens_a_mean * 100 else 0
  let duration_delta := duration_b_mean - duration_a_mean
  let duration_delta_pct :=
    if 0 < duration_a_mean then duration_delta / duration_a_mean * 100 else 0
  let cost_delta := cost_b_mean - cost_a_mean
  let cost_delta_pct := if 0 < cost_a_mean then cost_delta / cost_a_mean * 100 else 0
  let tokens_p_value :=
    if 2 ≤ tokens_a.length ∧ 2 ≤ tokens_b.length then mwP tokens_a tokens_b else none
  let duration_p_value :=
    if 2 ≤ tokens_a.length ∧ 2 ≤ tokens_b.length then mwP durations_a durations_b
    else none
  { tokens_a_mean := tokens_a_mean
    tokens_b_mean := tokens_b_mean
    tokens_delta := tokens_delta
    tokens_delta_pct := tokens_delta_pct
    duration_a_mean := duration_a_mean
    duration_b_mean := duration_b_mean
    duration_delta := duration_delta
    duration_delta_pct := duration_delta_pct
    cost_a_mean := cost_a_mean
    cost_b_mean := cost_b_mean
    cost_delta := cost_delta
    cost_delta_pct := cost_delta_pct
    tokens_p_value := tokens_p_value
    duration_p_value := duration_p_value
    recommendation :=
      generate_efficiency_recommendation tokens_delta_pct duration_delta_pct
        tokens_p_value duration_p_value results_a.length results_b.length }

end Harness

namespace Harness

/-- A sample all-passed result used by concrete witnesses. -/
def sampleResult (passed : Bool) (score : ℚ) : EvalResult :=
  { task_id := "test_task"
    config_name := "test_config"
    model := "claude-test"
    passed := passed
    overall_score := score
    input_tokens := 100
    output_tokens := 50
    duration_seconds := 10 }

/-- A sample tests-pass code assertion used by concrete witnesses. -/
def sampleCodeAssertion : CodeAssertion :=
  { check := CodeCheckType.tests_pass, command := none, file := none, pattern := none }

/-- A sample medium task with a single code assertion. -/
def sampleTaskOneCode : Task :=
  { id := "t"
    difficulty := TaskDifficulty.medium
    assertions := [Assertion.code sampleCodeAssertion]
    scoring := []
    pass_threshold := none }

/-- A failing code grade used as a constant grader oracle in witnesses. -/
def failGrade : GradeResult :=
  { assertion_id := "tests_pass", assertion_type := "code",
    assertion_name := "tests_pass", passed := false, score := 0 }

/-- A passing LLM grade used as a constant grader oracle in witnesses. -/
def passGrade : GradeResult :=
  { assertion_id := "", assertion_type := "llm",
    assertion_name := "", passed := true, score := 1 }

/-- A baseline result set: two passes under one (task, config, model) key. -/
def witBaseline : List EvalResult := [sampleResult true 1, sampleResult true 1]

/-- A current result set: two failures under the same key. -/
def witCurrent : List EvalResult := [sampleResult false 0, sampleResult false 0]

/-- A constant Mann-Whitney oracle deeming every comparison significant. -/
def mwSig : List ℚ → List ℚ → ℚ × ℚ := fun _ _ => (0, 1/100)

/-- The (task, config, model) key of the sample results. -/
def witKey : String × String × String := ("test_task", "test_config", "claude-test")

/-- A result with a given total token count, for efficiency witnesses. -/
def effResult (tok : ℕ) : EvalResult :=
  { task_id := "t"
    config_name := "c"
    model := "m"
    passed := true
    overall_score := 1
    input_tokens := tok
    output_tokens := 0
    duration_seconds := 10 }

/-- Config-A efficiency sample: two runs of 100 tokens. -/
def effA : List EvalResult := [effResult 100, effResult 100]

/-- Config-B efficiency sample: two runs of 200 tokens. -/
def effB : List EvalResult := [effResult 200, effResult 200]

end Harness

namespace Harness

/-- C5: for 1 ≤ k ≤ n the estimator equals 1 - C(n-c,k)/C(n,k) (hence 1.0
when all passed and 0.0 when none passed), and the empty list yields 0.0
for every k (never a division by zero). -/
theorem pass_at_k_formula (results : List EvalResult) (k : ℕ) :
    (1 ≤ k → k ≤ results.length →
      pass_at_k_unbiased results k =
        1 - (Nat.choose (results.length -
            (results.filter (fun r => r.passed)).length) k : ℚ) /
          (Nat.choose results.length k : ℚ)) ∧
    (results = [] → pass_at_k_unbiased results k = 0) := by
  constructor
  · intro hk1 hkn
    classical
    set n := results.length with hn
    set c := (results.filter (fun r => r.passed)).length with hc
    have hnpos : n ≠ 0 := by omega
    have hchoose : Nat.choose n k ≠ 0 := Nat.ne_of_gt (Nat.choose_pos hkn)
    unfold pass_at_k_unbiased
    rw [← hn, ← hc]
    rw [if_neg hnpos, if_neg (by omega)]
    by_cases hcn : c = n
    · rw [if_pos hcn]
      have h0 : n - c = 0 := by omega
      rw [hcn] at h0 ⊢
      rw [Nat.sub_self]
      have : Nat.choose 0 k = 0 := Nat.choose_eq_zero_of_lt (by omega)
      rw [this]
      simp
    · rw [if_neg hcn]
      by_cases hc0 : c = 0
      · rw [if_pos hc0, hc0]
        rw [Nat.sub_zero]
        field_simp
      · rw [if_neg hc0, if_neg hchoose]
  · intro h
    subst h
    rfl

/-- C5 witness: a concrete 3-element list with 2 passes at k = 2, and the
empty list at k = 7. -/
theorem pass_at_k_formula_witness :
    1 ≤ 2 ∧ 2 ≤ ([sampleResult true 1, sampleResult true 1, sampleResult false 0]).length ∧
    pass_at_k_unbiased [sampleResult true 1, sampleResult true 1, sampleResult false 0] 2 =
      1 - (Nat.choose (3 - 2) 2 : ℚ) / (Nat.choose 3 2 : ℚ) ∧
    pass_at_k_unbiased ([] : List EvalResult) 7 = 0 :=
  ⟨by decide, by decide,
    (pass_at_k_formula [sampleResult true 1, sampleResult true 1, sampleResult false 0] 2).1
      (by decide) (by decide),
    (pass_at_k_formula ([] : List EvalResult) 7).2 rfl⟩

/-- C9: for a nonempty result list and k strictly larger than n, the
estimator silently falls back to the plain pass rate c / n. -/
theorem pass_at_k_fallback_rate (results : List EvalResult) (k : ℕ)
    (hne : results ≠ []) (hk : k > results.length) :
    pass_at_k_unbiased results k =
      ((results.filter (fun r => r.passed)).length : ℚ) / (results.length : ℚ) := by
  have hnpos : results.length ≠ 0 := by
    simpa [List.length_eq_zero] using hne
  unfold pass_at_k_unbiased
  rw [if_neg hnpos, if_pos hk]

/-- C9 witness: 3 results, all passed, k = 5 gives 3/3. -/
theorem pass_at_k_fallback_rate_witness :
    [sampleResult true 1, sampleResult true 1, sampleResult true 1] ≠ [] ∧
    5 > ([sampleResult true 1, sampleResult true 1, sampleResult true 1]).length ∧
    pass_at_k_unbiased [sampleResult true 1, sampleResult true 1, sampleResult true 1] 5 =
      ((([sampleResult true 1, sampleResult true 1,
          sampleResult true 1]).filter (fun r => r.passed)).length : ℚ) / 3 :=
  ⟨by decide, by decide,
    pass_at_k_fallback_rate [sampleResult true 1, sampleResult true 1, sampleResult true 1] 5
      (by decide) (by decide)⟩

/-- An id of the form `code_...` starts with `code_`. -/
theorem pyStartsWith_code (s : String) : pyStartsWith ("code_" ++ s) "code_" = true := by
  unfold pyStartsWith
  rw [String.data_append]
  simp [List.isPrefixOf_iff_prefix]

/-- An id of the form `llm_...` does not start with `code_`. -/
theorem pyStartsWith_llm (s : String) : pyStartsWith ("llm_" ++ s) "code_" = false := by
  unfold pyStartsWith
  rw [String.data_append]
  rw [show "llm_".data = ['l', 'l', 'm', '_'] from rfl]
  simp [List.isPrefixOf]

/-- `all` over an enumerated-from-`n` list whose predicate only looks at
the element, for the grade-assembling map of `composite_grade`. -/
theorem all_enumFrom_graded (codeGrade : CodeAssertion → GradeResult)
    (l : List CodeAssertion) (n : ℕ) :
    ((l.enumFrom n).map (fun (ia : ℕ × CodeAssertion) =>
      { codeGrade ia.2 with
        assertion_id := "code_" ++ (toString ia.1 ++ "_" ++ ia.2.check.value) })).all
      (fun g => g.passed) =
    l.all (fun a => (codeGrade a).passed) := by
  induction l generalizing n with
  | nil => rfl
  | cons a as ih =>
    simp only [List.enumFrom, List.map_cons, List.all_cons]
    rw [ih]

/-- The passed flag of `composite_grade`: the score-over-threshold test
OR-ed with all code assertions individually passing (vacuously true when
there are none). -/
theorem composite_grade_passed_iff (codeGrade : CodeAssertion → GradeResult)
    (llmGrade : LLMAssertion → GradeResult) (task : Task) :
    ((composite_grade codeGrade llmGrade task).2.2 = true ↔
      ((composite_grade codeGrade llmGrade task).2.1 ≥
          (match task.pass_threshold with
           | some t => t
           | none => DIFFICULTY_THRESHOLDS task.difficulty) ∨
        ∀ a ∈ task.code_assertions, (codeGrade a).passed = true)) := by
  have hfilter :
      ((task.code_assertions.enum.map (fun (ia : ℕ × CodeAssertion) =>
          { codeGrade ia.2 with
            assertion_id := "code_" ++ (toString ia.1 ++ "_" ++ ia.2.check.value) })) ++
        (task.llm_assertions.enum.map (fun (ia : ℕ × LLMAssertion) =>
          { llmGrade ia.2 with assertion_id := "llm_" ++ toString ia.1 }))).filter
          (fun g => pyStartsWith g.assertion_id "code_") =
      task.code_assertions.enum.map (fun (ia : ℕ × CodeAssertion) =>
        { codeGrade ia.2 with
          assertion_id := "code_" ++ (toString ia.1 ++ "_" ++ ia.2.check.value) }) := by
    rw [List.filter_append]
    have h1 : ∀ g ∈ task.code_assertions.enum.map (fun (ia : ℕ × CodeAssertion) =>
        { codeGrade ia.2 with
          assertion_id := "code_" ++ (toString ia.1 ++ "_" ++ ia.2.check.value) }),
        (pyStartsWith g.assertion_id "code_") = true := by
      intro g hg
      rw [List.mem_map] at hg
      obtain ⟨ia, _, rfl⟩ := hg
      exact pyStartsWith_code _
    have h2 : ∀ g ∈ task.llm_assertions.enum.map (fun (ia : ℕ × LLMAssertion) =>
        { llmGrade ia.2 with assertion_id := "llm_" ++ toString ia.1 }),
        ¬ ((pyStartsWith g.assertion_id "code_") = true) := by
      intro g hg
      rw [List.mem_map] at hg
      obtain ⟨ia, _, rfl⟩ := hg
      simp [pyStartsWith_llm]
    rw [List.filter_eq_self.mpr h1, List.filter_eq_nil_iff.mpr h2, List.append_nil]
  have hall : ∀ (l : List GradeResult),
      (if l = [] then true else l.all fun g => g.passed) = l.all fun g => g.passed := by
    intro l
    cases l with
    | nil => simp
    | cons a as => simp
  have key : (composite_grade codeGrade llmGrade task).2.2 =
      (decide ((composite_grade codeGrade llmGrade task).2.1 ≥
          (match task.pass_threshold with
           | some t => t
           | none => DIFFICULTY_THRESHOLDS task.difficulty)) ||
        task.code_assertions.all (fun a => (codeGrade a).passed)) := by
    simp only [composite_grade, hfilter]
    rw [hall]
    rw [show task.code_assertions.enum = task.code_assertions.enumFrom 0 from rfl]
    rw [all_enumFrom_graded]
  rw [key]
  simp only [Bool.or_eq_true, decide_eq_true_eq, List.all_eq_true]

/-- C1: with an empty assertion list the composite grader returns an
overall score of 0.0 but `passed = True`: the all-code-assertions check is
vacuously true, so a zero-assertion task auto-passes, for every grading
oracle, task metadata and threshold setting. -/
theorem composite_grade_no_assertions (codeGrade : CodeAssertion → GradeResult)
    (llmGrade : LLMAssertion → GradeResult) (id : String) (d : TaskDifficulty)
    (w : List (String × ℚ)) (pt : Option ℚ) :
    composite_grade codeGrade llmGrade
      { id := id, difficulty := d, assertions := [], scoring := w, pass_threshold := pt } =
      ([], 0, true) := by
  simp [composite_grade, Task.code_assertions, Task.llm_assertions, calculate_weighted_score]

/-- C2: for a task with at least one assertion the composite verdict is
`passed = True` iff the weighted overall score reaches the pass threshold
(the task override when set, otherwise 0.85 / 0.70 / 0.55 for easy /
medium / hard) OR every code assertion's grade individually passed. -/
theorem composite_grade_pass_rule (codeGrade : CodeAssertion → GradeResult)
    (llmGrade : LLMAssertion → GradeResult) (task : Task)
    (_h : task.assertions ≠ []) :
    ((composite_grade codeGrade llmGrade task).2.2 = true ↔
      ((composite_grade codeGrade llmGrade task).2.1 ≥
          (match task.pass_threshold with
           | some t => t
           | none =>
             match task.difficulty with
             | .easy => 17/20
             | .medium => 7/10
             | .hard => 11/20) ∨
        ∀ a ∈ task.code_assertions, (codeGrade a).passed = true)) := by
  have hthr :
      (match task.pass_threshold with
       | some t => t
       | none =>
         match task.difficulty with
         | .easy => (17/20 : ℚ)
         | .medium => 7/10
         | .hard => 11/20) =
      (match task.pass_threshold with
       | some t => t
       | none => DIFFICULTY_THRESHOLDS task.difficulty) := by
    cases task.pass_threshold with
    | some t => rfl
    | none => cases task.difficulty <;> rfl
  rw [hthr]
  exact composite_grade_passed_iff codeGrade llmGrade task

/-- C2 witness: one failing code assertion on a medium task with score 0 —
both sides of the equivalence are false, and the threshold evaluates to
the medium-difficulty 0.70. -/
theorem composite_grade_pass_rule_witness :
    sampleTaskOneCode.assertions ≠ [] ∧
    ((composite_grade (fun _ => failGrade) (fun _ => passGrade) sampleTaskOneCode).2.2 = true ↔
      ((composite_grade (fun _ => failGrade) (fun _ => passGrade) sampleTaskOneCode).2.1 ≥
          (7/10 : ℚ) ∨
        ∀ a ∈ sampleTaskOneCode.code_assertions, ((fun _ => failGrade) a).passed = true)) :=
  ⟨by simp [sampleTaskOneCode],
    composite_grade_pass_rule (fun _ => failGrade) (fun _ => passGrade) sampleTaskOneCode
      (by simp [sampleTaskOneCode])⟩

/-- C5 counterexample: k = 0 satisfies k ≤ n = 1 on an all-passed
singleton, the code returns 1.0 but the claimed formula value is 0.0. -/
theorem pass_at_k_zero_k_counterexample :
    pass_at_k_unbiased [sampleResult true 1] 0 = 1 ∧
    (0 : ℕ) ≤ ([sampleResult true 1]).length ∧
    (1 : ℚ) ≠ 1 - (Nat.choose (([sampleResult true 1]).length -
        (([sampleResult true 1]).filter (fun r => r.passed)).length) 0 : ℚ) /
      (Nat.choose ([sampleResult true 1]).length 0 : ℚ) := by
  refine ⟨rfl, by norm_num, ?_⟩
  norm_num [sampleResult]

/-- C6: with fewer than 2 results in either group, `compare_configs` is
independent of the statistical-test oracle (the Mann-Whitney test is never
run), and returns a non-significant result with zero effect size and the
insufficient-samples recommendation. -/
theorem compare_configs_insufficient (mw mw' : List ℚ → List ℚ → ℚ × ℚ)
    (sqrtQ sqrtQ' : ℚ → ℚ) (alpha : ℚ) (a b : List EvalResult)
    (h : a.length < 2 ∨ b.length < 2) :
    compare_configs mw sqrtQ alpha a b = compare_configs mw' sqrtQ' alpha a b ∧
    (compare_configs mw sqrtQ alpha a b).is_significant = false ∧
    (compare_configs mw sqrtQ alpha a b).effect_size = 0 ∧
    (compare_configs mw sqrtQ alpha a b).recommendation =
      "Insufficient samples for statistical comparison (need at least 2 per group)." := by
  have h' : (a.map (fun r => r.overall_score)).length < 2 ∨
      (b.map (fun r => r.overall_score)).length < 2 := by
    simpa [List.length_map] using h
  unfold compare_configs
  rw [if_pos h', if_pos h']
  exact ⟨rfl, rfl, rfl, rfl⟩

/-- C6 witness: one result versus two, with two distinct oracles. -/
theorem compare_configs_insufficient_witness :
    ([sampleResult true (4/5)].length < 2 ∨
      [sampleResult false (3/10), sampleResult true 1].length < 2) ∧
    ((compare_configs (fun _ _ => (0, 0)) (fun q => q) (1/20)
        [sampleResult true (4/5)] [sampleResult false (3/10), sampleResult true 1]) =
      (compare_configs (fun _ _ => (17, 1/1000)) (fun _ => 5) (1/20)
        [sampleResult true (4/5)] [sampleResult false (3/10), sampleResult true 1]) ∧
      (compare_configs (fun _ _ => (0, 0)) (fun q => q) (1/20)
        [sampleResult true (4/5)]
        [sampleResult false (3/10), sampleResult true 1]).is_significant = false ∧
      (compare_configs (fun _ _ => (0, 0)) (fun q => q) (1/20)
        [sampleResult true (4/5)]
        [sampleResult false (3/10), sampleResult true 1]).effect_size = 0 ∧
      (compare_configs (fun _ _ => (0, 0)) (fun q => q) (1/20)
        [sampleResult true (4/5)]
        [sampleResult false (3/10), sampleResult true 1]).recommendation =
        "Insufficient samples for statistical comparison (need at least 2 per group).") :=
  ⟨by decide,
    compare_configs_insufficient (fun _ _ => (0, 0)) (fun _ _ => (17, 1/1000))
      (fun q => q) (fun _ => 5) (1/20)
      [sampleResult true (4/5)] [sampleResult false (3/10), sampleResult true 1]
      (by decide)⟩

/-- C8 counterexample: baseline_rate = 0.99 is inside (0,1) yet with the
default min_effect = 0.1 the clamped alternative rate collapses onto the
baseline, the squared rate difference is 0, and the function returns the
fallback 30 — not the formula result rounded up (nor its floor at 5). -/
theorem minimum_sample_size_zero_denominator :
    (minimum_sample_size (fun q => q) (fun q => q)
      (99/100) (1/10) (4/5) (1/20)).recommended_sample_size = 30 ∧
    (0 : ℚ) < 99/100 ∧ (99/100 : ℚ) < 1 ∧
    ((99/100 : ℚ) - altRate (99/100) (1/10)) ^ 2 = 0 ∧
    (30 : ℤ) ≠ max
      ⌈sampleSizeNumerator (fun q => q) (fun q => q) (99/100)
          (altRate (99/100) (1/10)) (4/5) (1/20) /
        (((99/100 : ℚ) - altRate (99/100) (1/10)) ^ 2)⌉ 5 := by
  have halt : altRate (99/100) (1/10) = 99/100 := by
    unfold altRate
    norm_num
  have hden : ((99/100 : ℚ) - altRate (99/100) (1/10)) ^ 2 = 0 := by
    rw [halt]
    ring
  refine ⟨?_, by norm_num, by norm_num, hden, ?_⟩
  · unfold minimum_sample_size
    rw [if_neg (by norm_num)]
    simp only [halt]
    norm_num
  · rw [hden, div_zero]
    norm_num

/-- C8 (amended): an invalid baseline rate yields the fallback 30 with an
invalid-input note; a valid baseline rate yields 30 with a zero-effect
note when the clamped alternative rate equals the baseline, and otherwise
the ceiling of the two-proportion formula floored at 5 (hence at least 5). -/
theorem minimum_sample_size_spec (ppf sqrtQ : ℚ → ℚ) (b e p a : ℚ) :
    (¬ (0 < b ∧ b < 1) →
      (minimum_sample_size ppf sqrtQ b e p a).recommended_sample_size = 30 ∧
      (minimum_sample_size ppf sqrtQ b e p a).notes =
        "Invalid baseline rate. Using minimum sample size of 30.") ∧
    (0 < b → b < 1 →
      (altRate b e = b →
        (minimum_sample_size ppf sqrtQ b e p a).recommended_sample_size = 30 ∧
        (minimum_sample_size ppf sqrtQ b e p a).notes =
          "Effect size is 0. Using minimum sample size of 30.") ∧
      (altRate b e ≠ b →
        (minimum_sample_size ppf sqrtQ b e p a).recommended_sample_size =
          max ⌈sampleSizeNumerator ppf sqrtQ b (altRate b e) p a /
            ((b - altRate b e) ^ 2)⌉ 5 ∧
        5 ≤ (minimum_sample_size ppf sqrtQ b e p a).recommended_sample_size)) := by
  constructor
  · intro hinv
    unfold minimum_sample_size
    rw [if_pos hinv]
    exact ⟨rfl, rfl⟩
  · intro h0 h1
    have hval : ¬ ¬ (0 < b ∧ b < 1) := by exact not_not_intro ⟨h0, h1⟩
    constructor
    · intro heq
      have hden : (b - altRate b e) ^ 2 = 0 := by
        rw [heq]
        ring
      unfold minimum_sample_size
      rw [if_neg hval, if_pos hden]
      exact ⟨rfl, rfl⟩
    · intro hne
      have hden : (b - altRate b e) ^ 2 ≠ 0 := by
        intro hc
        apply hne
        have := pow_eq_zero_iff (n := 2) (by omega) |>.mp hc
        have : b = altRate b e := by linarith [sub_eq_zero.mp this]
        exact this.symm
      unfold minimum_sample_size
      rw [if_neg hval, if_neg hden]
      exact ⟨rfl, le_max_right _ _⟩

/-- C8 witness: baseline 0.7, min_effect 0.1 with identity oracles — the
clamped alternative rate is 0.8 ≠ 0.7 and the recommended size is the
formula ceiling floored at 5. -/
theorem minimum_sample_size_spec_witness :
    altRate (7/10) (1/10) ≠ (7/10 : ℚ) ∧
    ((minimum_sample_size (fun q => q) (fun q => q)
        (7/10) (1/10) (4/5) (1/20)).recommended_sample_size =
      max ⌈sampleSizeNumerator (fun q => q) (fun q => q) (7/10)
          (altRate (7/10) (1/10)) (4/5) (1/20) /
        (((7/10 : ℚ) - altRate (7/10) (1/10)) ^ 2)⌉ 5 ∧
      5 ≤ (minimum_sample_size (fun q => q) (fun q => q)
        (7/10) (1/10) (4/5) (1/20)).recommended_sample_size) :=
  ⟨by unfold altRate; norm_num,
    ((minimum_sample_size_spec (fun q => q) (fun q => q) (7/10) (1/10) (4/5) (1/20)).2
      (by norm_num) (by norm_num)).2 (by unfold altRate; norm_num)⟩

/-- C7: when pass/fail/error counts are parseable from the output
(total > 0) the score is passed/(passed+failed+error) and the grade passes
iff the exit code is zero or the ratio reaches the threshold; with no
parseable counts, score and passed are binary from the exit code alone. -/
theorem grade_tests_pass_spec (rc : ℤ) (out : String) (thr : ℚ) :
    (0 < (searchCount "passed".data out.data).getD 0 +
        (searchCount "failed".data out.data).getD 0 +
        (searchCount "error".data out.data).getD 0 →
      (grade_tests_pass rc out thr).score =
        ((searchCount "passed".data out.data).getD 0 : ℚ) /
          (((searchCount "passed".data out.data).getD 0 +
            (searchCount "failed".data out.data).getD 0 +
            (searchCount "error".data out.data).getD 0 : ℕ) : ℚ) ∧
      ((grade_tests_pass rc out thr).passed = true ↔
        rc = 0 ∨ (grade_tests_pass rc out thr).score ≥ thr)) ∧
    ((searchCount "passed".data out.data).getD 0 +
        (searchCount "failed".data out.data).getD 0 +
        (searchCount "error".data out.data).getD 0 = 0 →
      ((grade_tests_pass rc out thr).passed = true ↔ rc = 0) ∧
      (grade_tests_pass rc out thr).score = (if rc = 0 then 1 else 0)) := by
  constructor
  · intro h
    simp only [grade_tests_pass]
    rw [if_pos h]
    refine ⟨rfl, ?_⟩
    simp [Bool.or_eq_true, decide_eq_true_eq]
  · intro h
    have h' : ¬ 0 < (searchCount "passed".data out.data).getD 0 +
        (searchCount "failed".data out.data).getD 0 +
        (searchCount "error".data out.data).getD 0 := by omega
    simp only [grade_tests_pass]
    rw [if_neg h']
    constructor
    · simp [decide_eq_true_eq]
    · by_cases hrc : rc = 0
      · simp [hrc]
      · simp [hrc]

/-- C7 witness: output "9 passed, 1 failed" with nonzero exit code at the
default threshold 0.8 — score 9/10 and passed since 9/10 ≥ 8/10. -/
theorem grade_tests_pass_spec_witness :
    0 < (searchCount "passed".data "9 passed, 1 failed".data).getD 0 +
        (searchCount "failed".data "9 passed, 1 failed".data).getD 0 +
        (searchCount "error".data "9 passed, 1 failed".data).getD 0 ∧
    (grade_tests_pass 1 "9 passed, 1 failed" (4/5)).score = 9/10 ∧
    (grade_tests_pass 1 "9 passed, 1 failed" (4/5)).passed = true := by
  have hp : (searchCount "passed".data "9 passed, 1 failed".data).getD 0 = 9 := by decide
  have hf : (searchCount "failed".data "9 passed, 1 failed".data).getD 0 = 1 := by decide
  have he : (searchCount "error".data "9 passed, 1 failed".data).getD 0 = 0 := by decide
  have h := (grade_tests_pass_spec 1 "9 passed, 1 failed" (4/5)).1 (by decide)
  rw [hp, hf, he] at h
  have hscore : (grade_tests_pass 1 "9 passed, 1 failed" (4/5)).score = 9/10 := by
    rw [h.1]
    norm_num
  refine ⟨by decide, hscore, ?_⟩
  rw [h.2, hscore]
  right
  norm_num

/-- C3: with a nonnegative threshold, a both-sided group lands in the
regressions list iff its pass-rate delta is below -threshold and (when
significance is required) the statistical comparison is significant; the
improvements list is symmetric at delta > threshold; and the returned flag
is true iff some group key tests as a regression. -/
theorem check_regression_spec (mw : List ℚ → List ℚ → ℚ × ℚ) (sqrtQ : ℚ → ℚ)
    (baseline current : List EvalResult) (threshold : ℚ) (rs : Bool)
    (h : 0 ≤ threshold) :
    (∀ k ∈ allKeys baseline current,
      groupGet baseline k ≠ [] → groupGet current k ≠ [] →
      ((mkGroupComparison mw sqrtQ baseline current k ∈
          (check_regression mw sqrtQ baseline current threshold rs).2.regressions) ↔
        ((mkGroupComparison mw sqrtQ baseline current k).delta < -threshold ∧
          (rs = true →
            (compare_configs mw sqrtQ (1/20) (groupGet baseline k)
              (groupGet current k)).is_significant = true))) ∧
      ((mkGroupComparison mw sqrtQ baseline current k ∈
          (check_regression mw sqrtQ baseline current threshold rs).2.improvements) ↔
        ((mkGroupComparison mw sqrtQ baseline current k).delta > threshold ∧
          (rs = true →
            (compare_configs mw sqrtQ (1/20) (groupGet baseline k)
              (groupGet current k)).is_significant = true)))) ∧
    ((check_regression mw sqrtQ baseline current threshold rs).1 = true ↔
      ∃ k ∈ allKeys baseline current,
        isRegressionGroup threshold rs
          (mkGroupComparison mw sqrtQ baseline current k) = true) := by
  constructor
  · intro k hk h1 h2
    have hstat : (mkGroupComparison mw sqrtQ baseline current k).stat =
        some (compare_configs mw sqrtQ (1/20) (groupGet baseline k)
          (groupGet current k)) := by
      simp only [mkGroupComparison]
      rw [if_pos ⟨h1, h2⟩]
    have hmem : mkGroupComparison mw sqrtQ baseline current k ∈
        (allKeys baseline current).map (mkGroupComparison mw sqrtQ baseline current) :=
      List.mem_map_of_mem _ hk
    have hreg : (isRegressionGroup threshold rs
        (mkGroupComparison mw sqrtQ baseline current k) = true) ↔
        ((mkGroupComparison mw sqrtQ baseline current k).delta < -threshold ∧
          (rs = true →
            (compare_configs mw sqrtQ (1/20) (groupGet baseline k)
              (groupGet current k)).is_significant = true)) := by
      cases rs with
      | true => simp [isRegressionGroup, hstat]
      | false => simp [isRegressionGroup, hstat]
    have himp : (isImprovementGroup threshold rs
        (mkGroupComparison mw sqrtQ baseline current k) = true) ↔
        ((mkGroupComparison mw sqrtQ baseline current k).delta > threshold ∧
          (rs = true →
            (compare_configs mw sqrtQ (1/20) (groupGet baseline k)
              (groupGet current k)).is_significant = true)) := by
      cases rs with
      | true => simp [isImprovementGroup, hstat]
      | false => simp [isImprovementGroup, hstat]
    constructor
    · show mkGroupComparison mw sqrtQ baseline current k ∈
        ((allKeys baseline current).map
          (mkGroupComparison mw sqrtQ baseline current)).filter
          (isRegressionGroup threshold rs) ↔ _
      rw [List.mem_filter]
      simp only [hmem, true_and]
      exact hreg
    · show mkGroupComparison mw sqrtQ baseline current k ∈
        ((allKeys baseline current).map
          (mkGroupComparison mw sqrtQ baseline current)).filter
          (fun c => !(isRegressionGroup threshold rs c) &&
            isImprovementGroup threshold rs c) ↔ _
      rw [List.mem_filter]
      simp only [hmem, true_and, Bool.and_eq_true, Bool.not_eq_true']
      constructor
      · rintro ⟨_, hi⟩
        exact himp.mp hi
      · intro hi
        refine ⟨?_, himp.mpr hi⟩
        cases hb : isRegressionGroup threshold rs
            (mkGroupComparison mw sqrtQ baseline current k) with
        | false => rfl
        | true =>
          obtain ⟨hlt, _⟩ := hreg.mp hb
          rcases hi with ⟨hgt, _⟩
          exfalso
          linarith
  · show decide (0 < (((allKeys baseline current).map
        (mkGroupComparison mw sqrtQ baseline current)).filter
        (isRegressionGroup threshold rs)).length) = true ↔ _
    rw [decide_eq_true_eq, List.length_pos, Ne, List.filter_eq_nil_iff]
    push_neg
    constructor
    · rintro ⟨c, hc, hc2⟩
      rw [List.mem_map] at hc
      obtain ⟨k, hk, rfl⟩ := hc
      exact ⟨k, hk, hc2⟩
    · rintro ⟨k, hk, hk2⟩
      exact ⟨mkGroupComparison mw sqrtQ baseline current k,
        List.mem_map_of_mem _ hk, hk2⟩

/-- C10: with require_significance on, a group key with baseline data but
no current data gets no statistical comparison, and it is classified as a
regression from the delta alone — exactly when its baseline pass rate
exceeds the threshold, regardless of sample size. -/
theorem check_regression_baseline_only (mw : List ℚ → List ℚ → ℚ × ℚ)
    (sqrtQ : ℚ → ℚ) (baseline current : List EvalResult) (threshold : ℚ)
    (k : String × String × String)
    (h1 : groupGet baseline k ≠ []) (h2 : groupGet current k = []) :
    (mkGroupComparison mw sqrtQ baseline current k).stat = none ∧
    ((mkGroupComparison mw sqrtQ baseline current k ∈
        (check_regression mw sqrtQ baseline current threshold true).2.regressions) ↔
      threshold < calcPassRate (groupGet baseline k)) := by
  have hstat : (mkGroupComparison mw sqrtQ baseline current k).stat = none := by
    simp only [mkGroupComparison]
    rw [if_neg (by simp [h2])]
  have hdelta : (mkGroupComparison mw sqrtQ baseline current k).delta =
      0 - calcPassRate (groupGet baseline k) := by
    simp only [mkGroupComparison, h2]
    rfl
  have hk : k ∈ allKeys baseline current := by
    have : ∃ r ∈ baseline, decide (groupKey r = k) = true := by
      by_contra hc
      push_neg at hc
      exact h1 (List.filter_eq_nil_iff.mpr hc)
    obtain ⟨r, hr, hrk⟩ := this
    rw [decide_eq_true_eq] at hrk
    apply List.mem_dedup.mpr
    apply List.mem_append_left
    rw [← hrk]
    exact List.mem_map_of_mem _ hr
  have hmem : mkGroupComparison mw sqrtQ baseline current k ∈
      (allKeys baseline current).map (mkGroupComparison mw sqrtQ baseline current) :=
    List.mem_map_of_mem _ hk
  refine ⟨hstat, ?_⟩
  show mkGroupComparison mw sqrtQ baseline current k ∈
      ((allKeys baseline current).map
        (mkGroupComparison mw sqrtQ baseline current)).filter
        (isRegressionGroup threshold true) ↔ _
  rw [List.mem_filter]
  simp only [hmem, true_and]
  unfold isRegressionGroup
  rw [hstat]
  simp only [hdelta, decide_eq_true_eq]
  constructor
  · intro hlt
    linarith
  · intro hlt
    linarith

/-- C3 witness: a both-sided group whose pass rate drops from 1 to 0 with
a significant oracle at threshold 0.1. -/
theorem check_regression_spec_witness :
    (0 : ℚ) ≤ 1/10 ∧ witKey ∈ allKeys witBaseline witCurrent ∧
    groupGet witBaseline witKey ≠ [] ∧ groupGet witCurrent witKey ≠ [] ∧
    ((mkGroupComparison mwSig (fun q => q) witBaseline witCurrent witKey ∈
        (check_regression mwSig (fun q => q) witBaseline witCurrent
          (1/10) true).2.regressions) ↔
      ((mkGroupComparison mwSig (fun q => q) witBaseline witCurrent witKey).delta <
          -(1/10) ∧
        (true = true →
          (compare_configs mwSig (fun q => q) (1/20) (groupGet witBaseline witKey)
            (groupGet witCurrent witKey)).is_significant = true))) :=
  ⟨by norm_num, by decide, by decide, by decide,
    ((check_regression_spec mwSig (fun q => q) witBaseline witCurrent (1/10) true
      (by norm_num)).1 witKey (by decide) (by decide) (by decide)).1⟩

/-- C10 witness: a key present only in the baseline (the current set is
empty) with pass rate 1 at threshold 0.1. -/
theorem check_regression_baseline_only_witness :
    groupGet witBaseline witKey ≠ [] ∧
    groupGet ([] : List EvalResult) witKey = [] ∧
    ((mkGroupComparison mwSig (fun q => q) witBaseline [] witKey).stat = none ∧
      ((mkGroupComparison mwSig (fun q => q) witBaseline [] witKey ∈
          (check_regression mwSig (fun q => q) witBaseline [] (1/10) true).2.regressions) ↔
        (1/10 : ℚ) < calcPassRate (groupGet witBaseline witKey))) :=
  ⟨by decide, by decide,
    check_regression_baseline_only mwSig (fun q => q) witBaseline [] (1/10) witKey
      (by decide) (by decide)⟩

/-- Rounding half-to-even of a nonnegative rational is nonnegative. -/
theorem roundHalfEven_nonneg {q : ℚ} (h : 0 ≤ q) : 0 ≤ roundHalfEven q := by
  unfold roundHalfEven
  have hf : (0 : ℤ) ≤ ⌊q⌋ := Int.floor_nonneg.mpr h
  dsimp only
  split_ifs <;> omega

/-- The digit characters 0-9 satisfy `Char.isDigit`. -/
theorem digitChar_isDigit {m : ℕ} (h : m < 10) : (digitChar m).isDigit = true := by
  interval_cases m <;> decide

/-- Every character of `natChars` is a digit. -/
theorem natChars_digits (n : ℕ) : ∀ c ∈ natChars n, c.isDigit = true := by
  induction n using Nat.strong_induction_on with
  | _ n ih =>
    intro c hc
    rw [natChars] at hc
    by_cases h : n < 10
    · rw [dif_pos h] at hc
      rw [List.mem_singleton] at hc
      subst hc
      exact digitChar_isDigit h
    · rw [dif_neg h] at hc
      rcases List.mem_append.mp hc with hc | hc
      · exact ih (n / 10) (Nat.div_lt_self (by omega) (by omega)) c hc
      · rw [List.mem_singleton] at hc
        subst hc
        exact digitChar_isDigit (Nat.mod_lt _ (by omega))

/-- `natChars` never returns the empty list. -/
theorem natChars_ne_nil (n : ℕ) : natChars n ≠ [] := by
  rw [natChars]
  by_cases h : n < 10
  · rw [dif_pos h]
    simp
  · rw [dif_neg h]
    simp

/-- Every character of `fmt0 |q|` is a digit. -/
theorem fmt0_abs_digits (q : ℚ) : ∀ c ∈ (fmt0 |q|).data, c.isDigit = true := by
  intro c hc
  unfold fmt0 intChars at hc
  rw [if_neg (not_lt.mpr (roundHalfEven_nonneg (abs_nonneg q)))] at hc
  exact natChars_digits _ c hc

/-- `fmt0 |q|` is a nonempty character list. -/
theorem fmt0_abs_ne_nil (q : ℚ) : (fmt0 |q|).data ≠ [] := by
  unfold fmt0 intChars
  rw [if_neg (not_lt.mpr (roundHalfEven_nonneg (abs_nonneg q)))]
  exact natChars_ne_nil _

/-- Infix is preserved by appending on the right. -/
theorem infix_append_left {X L M : List Char} (h : X <:+: L) : X <:+: L ++ M :=
  h.trans (List.prefix_append L M).isInfix

/-- Infix is preserved by appending on the left. -/
theorem infix_append_right {X L M : List Char} (h : X <:+: M) : X <:+: L ++ M :=
  h.trans (List.suffix_append L M).isInfix

/-- A nonempty pattern of non-digit characters cannot occur as an infix of
`A ++ (D ++ B)` when `D` is a nonempty run of digits and the pattern
occurs in neither `A` nor `B`: an occurrence would have to straddle the
digit run and contain a digit. -/
theorem not_infix_of_digit_split {p A D B : List Char} (hp : p ≠ [])
    (hpc : ∀ c ∈ p, c.isDigit = false) (hD : D ≠ [])
    (hDc : ∀ c ∈ D, c.isDigit = true)
    (hA : ¬ p <:+: A) (hB : ¬ p <:+: B) : ¬ p <:+: A ++ (D ++ B) := by
  rintro ⟨s, t, hst⟩
  rw [List.append_assoc] at hst
  rcases List.append_eq_append_iff.mp hst with ⟨a1, ha1, ha2⟩ | ⟨c1, hc1, hc2⟩
  · rcases List.append_eq_append_iff.mp ha2 with ⟨a2, hb1, _⟩ | ⟨c2, hb1, hb2⟩
    · exact hA ⟨s, a2, by rw [ha1, hb1, List.append_assoc]⟩
    · cases c2 with
      | nil =>
        rw [List.append_nil] at hb1
        exact hA ⟨s, [], by rw [ha1, hb1, List.append_nil]⟩
      | cons d0 cs =>
        cases D with
        | nil => exact hD rfl
        | cons e D2 =>
          have hhead : e = d0 := by
            have : e :: (D2 ++ B) = d0 :: (cs ++ t) := by
              simpa using hb2
            exact (List.cons.injEq _ _ _ _ ▸ this).1
          have hd0p : d0 ∈ p := by
            rw [hb1]
            exact List.mem_append_right _ (by simp)
          have h1 := hpc d0 hd0p
          have h2 := hDc e (by simp)
          rw [hhead] at h2
          rw [h1] at h2
          exact Bool.false_ne_true h2
  · rcases List.append_eq_append_iff.mp hc2 with ⟨a2, hb1, hb2⟩ | ⟨c2, hb1, hb2⟩
    · exact hB ⟨a2, t, by rw [hb2, List.append_assoc]⟩
    · cases c2 with
      | nil =>
        rw [List.nil_append] at hb2
        exact hB ⟨[], t, by rw [← hb2]; rfl⟩
      | cons d0 cs =>
        cases p with
        | nil => exact hp rfl
        | cons p0 ps =>
          have hhead : p0 = d0 := by
            have : p0 :: (ps ++ t) = d0 :: (cs ++ B) := by
              simpa using hb2
            exact (List.cons.injEq _ _ _ _ ▸ this).1
          have hd0D : d0 ∈ D := by
            rw [hb1]
            exact List.mem_append_right _ (by simp)
          have h1 := hpc p0 (by simp)
          have h2 := hDc d0 hd0D
          rw [hhead] at h1
          rw [h1] at h2
          exact Bool.false_ne_true h2

/-- Every character of a space-join is a space or a character of a part. -/
theorem mem_joinSpace_chars {c : Char} :
    ∀ (ps : List String), c ∈ (joinSpace ps).data →
      c = ' ' ∨ ∃ p ∈ ps, c ∈ p.data
  | [], hc => by simp [joinSpace] at hc
  | [p], hc => by
    right
    exact ⟨p, by simp, hc⟩
  | p :: q :: rest, hc => by
    rw [joinSpace] at hc
    simp only [String.data_append, List.mem_append] at hc
    rcases hc with (hc | hc) | hc
    · right
      exact ⟨p, by simp, hc⟩
    · left
      simpa using hc
    · rcases mem_joinSpace_chars (q :: rest) hc with h | ⟨x, hx, hcx⟩
      · left
        exact h
      · right
        exact ⟨x, List.mem_cons_of_mem _ hx, hcx⟩

/-- An infix of a part is an infix of the space-join. -/
theorem infix_joinSpace_of_mem {X : List Char} :
    ∀ (ps : List String) (p : String), p ∈ ps → X <:+: p.data →
      X <:+: (joinSpace ps).data
  | [], p, hp, _ => by simp at hp
  | [a], p, hp, hX => by
    rw [List.mem_singleton] at hp
    subst hp
    exact hX
  | a :: b :: rest, p, hp, hX => by
    rw [joinSpace]
    simp only [String.data_append]
    rcases List.mem_cons.mp hp with rfl | hp'
    · exact infix_append_left (infix_append_left hX)
    · exact infix_append_right (infix_joinSpace_of_mem (b :: rest) p hp' hX)

/-- A character bound for `tokensPart`: any character not a digit, not in
the literal pieces and (unless the note is present) not in the
significance note is absent. -/
theorem not_mem_tokensPart {c : Char} (pct : ℚ) (sig : Bool)
    (hdig : c.isDigit = false)
    (h1 : c ∉ "B uses ".data) (h2 : c ∉ "% ".data) (h3 : c ∉ "fewer".data)
    (h4 : c ∉ "more".data) (h5 : c ∉ " tokens".data) (h7 : c ∉ ".".data)
    (hsig : sig = true → c ∉ " (statistically significant)".data) :
    c ∉ (tokensPart pct sig).data := by
  intro hmem
  unfold tokensPart sigNote at hmem
  split_ifs at hmem with ha hb hb
  all_goals simp only [String.data_append, List.mem_append] at hmem
  all_goals rcases hmem with ((((((hmem | hmem) | hmem) | hmem) | hmem) | hmem) | hmem)
  all_goals first
    | exact h1 hmem
    | exact h2 hmem
    | exact h3 hmem
    | exact h4 hmem
    | exact h5 hmem
    | exact h7 hmem
    | exact hsig hb hmem
    | exact (by simp at hmem : False)
    | exact absurd (fmt0_abs_digits pct c hmem) (by rw [hdig]; decide)

/-- The analogous character bound for `durationPart`. -/
theorem not_mem_durationPart {c : Char} (pct : ℚ) (sig : Bool)
    (hdig : c.isDigit = false)
    (h1 : c ∉ "B is ".data) (h2 : c ∉ "% ".data) (h3 : c ∉ "faster".data)
    (h4 : c ∉ "slower".data) (h7 : c ∉ ".".data)
    (hsig : sig = true → c ∉ " (statistically significant)".data) :
    c ∉ (durationPart pct sig).data := by
  intro hmem
  unfold durationPart sigNote at hmem
  split_ifs at hmem with ha hb hb
  all_goals simp only [String.data_append, List.mem_append] at hmem
  all_goals rcases hmem with (((((hmem | hmem) | hmem) | hmem) | hmem) | hmem)
  all_goals first
    | exact h1 hmem
    | exact h2 hmem
    | exact h3 hmem
    | exact h4 hmem
    | exact h7 hmem
    | exact hsig hb hmem
    | exact (by simp at hmem : False)
    | exact absurd (fmt0_abs_digits pct c hmem) (by rw [hdig]; decide)

/-- The token sentence mentions the word tokens. -/
theorem tokens_infix_tokensPart (pct : ℚ) (sig : Bool) :
    "tokens".data <:+: (tokensPart pct sig).data := by
  unfold tokensPart
  simp only [String.data_append]
  apply infix_append_left
  apply infix_append_left
  apply infix_append_right
  decide

/-- The duration sentence contains faster or slower. -/
theorem fastslow_infix_durationPart (pct : ℚ) (sig : Bool) :
    "faster".data <:+: (durationPart pct sig).data ∨
    "slower".data <:+: (durationPart pct sig).data := by
  unfold durationPart
  by_cases h : pct < 0
  · left
    rw [if_pos h]
    simp only [String.data_append]
    apply infix_append_left
    apply infix_append_left
    apply infix_append_right
    decide
  · right
    rw [if_neg h]
    simp only [String.data_append]
    apply infix_append_left
    apply infix_append_left
    apply infix_append_right
    decide

/-- With the significance note present, the token sentence contains it. -/
theorem signote_infix_tokensPart (pct : ℚ) :
    "(statistically significant)".data <:+: (tokensPart pct true).data := by
  unfold tokensPart sigNote
  simp only [if_true]
  simp only [String.data_append]
  apply infix_append_left
  apply infix_append_right
  decide

/-- With the significance note present, the duration sentence contains it. -/
theorem signote_infix_durationPart (pct : ℚ) :
    "(statistically significant)".data <:+: (durationPart pct true).data := by
  unfold durationPart sigNote
  simp only [if_true]
  simp only [String.data_append]
  apply infix_append_left
  apply infix_append_right
  decide

/-- No asterisk in the token sentence. -/
theorem star_not_mem_tokensPart (pct : ℚ) (sig : Bool) :
    '*' ∉ (tokensPart pct sig).data :=
  not_mem_tokensPart pct sig (by decide) (by decide) (by decide) (by decide)
    (by decide) (by decide) (by decide) (fun _ => by decide)

/-- No asterisk in the duration sentence. -/
theorem star_not_mem_durationPart (pct : ℚ) (sig : Bool) :
    '*' ∉ (durationPart pct sig).data :=
  not_mem_durationPart pct sig (by decide) (by decide) (by decide) (by decide)
    (by decide) (by decide) (fun _ => by decide)

/-- Without the significance note, the token sentence has no parenthesis. -/
theorem paren_not_mem_tokensPart (pct : ℚ) :
    '(' ∉ (tokensPart pct false).data :=
  not_mem_tokensPart pct false (by decide) (by decide) (by decide) (by decide)
    (by decide) (by decide) (by decide) (fun hx => absurd hx (by decide))

/-- Without the significance note, the duration sentence has no
parenthesis. -/
theorem paren_not_mem_durationPart (pct : ℚ) :
    '(' ∉ (durationPart pct false).data :=
  not_mem_durationPart pct false (by decide) (by decide) (by decide) (by decide)
    (by decide) (by decide) (fun hx => absurd hx (by decide))

/-- The letter k never occurs in the duration sentence, so it cannot
mention tokens. -/
theorem k_not_mem_durationPart (pct : ℚ) (sig : Bool) :
    'k' ∉ (durationPart pct sig).data :=
  not_mem_durationPart pct sig (by decide) (by decide) (by decide) (by decide)
    (by decide) (by decide) (fun _ => by decide)

/-- The word faster never occurs in the token sentence. -/
theorem faster_not_infix_tokensPart (pct : ℚ) (sig : Bool) :
    ¬ "faster".data <:+: (tokensPart pct sig).data := by
  unfold tokensPart
  simp only [String.data_append, List.append_assoc]
  apply not_infix_of_digit_split (by decide) (by decide) (fmt0_abs_ne_nil pct)
    (fmt0_abs_digits pct) (by decide)
  unfold sigNote
  split_ifs <;> decide

/-- The word slower never occurs in the token sentence. -/
theorem slower_not_infix_tokensPart (pct : ℚ) (sig : Bool) :
    ¬ "slower".data <:+: (tokensPart pct sig).data := by
  unfold tokensPart
  simp only [String.data_append, List.append_assoc]
  apply not_infix_of_digit_split (by decide) (by decide) (fmt0_abs_ne_nil pct)
    (fmt0_abs_digits pct) (by decide)
  unfold sigNote
  split_ifs <;> decide

/-- The full behaviour of the efficiency recommendation for adequate
samples: each metric is mentioned iff its absolute delta percentage
exceeds 10, the significance note appears iff a mentioned metric's
p-value is below 0.05, and no asterisk ever appears. -/
theorem gen_eff_rec_spec (tok dur : ℚ) (pT pD : Option ℚ) (na nb : ℕ)
    (h : ¬ min na nb < 2) :
    ("tokens".data <:+:
        (generate_efficiency_recommendation tok dur pT pD na nb).data ↔
      |tok| > 10) ∧
    (("faster".data <:+:
        (generate_efficiency_recommendation tok dur pT pD na nb).data ∨
      "slower".data <:+:
        (generate_efficiency_recommendation tok dur pT pD na nb).data) ↔
      |dur| > 10) ∧
    ("(statistically significant)".data <:+:
        (generate_efficiency_recommendation tok dur pT pD na nb).data ↔
      ((|tok| > 10 ∧ pSignificant pT = true) ∨
        (|dur| > 10 ∧ pSignificant pD = true))) ∧
    '*' ∉ (generate_efficiency_recommendation tok dur pT pD na nb).data := by
  by_cases hT : |tok| > 10 <;> by_cases hU : |dur| > 10
  · -- both metrics mentioned
    have hshape : ∃ rest : List String,
        generate_efficiency_recommendation tok dur pT pD na nb =
          joinSpace (tokensPart tok (pSignificant pT) ::
            durationPart dur (pSignificant pD) :: rest) ∧
        ∀ p ∈ rest, '(' ∉ p.data ∧ '*' ∉ p.data := by
      cases hbb : decide (tok < -10 ∧ dur < -10) with
      | true =>
        refine ⟨["B is more efficient overall."], ?_, ?_⟩
        · simp only [generate_efficiency_recommendation]
          rw [if_neg h, if_pos hT, if_pos hU, if_neg (by simp), if_pos hbb]
          rfl
        · intro p hp
          rw [List.mem_singleton] at hp
          subst hp
          exact ⟨by decide, by decide⟩
      | false =>
        have hbbn : ¬ (decide (tok < -10 ∧ dur < -10) = true) := by
          rw [hbb]
          exact Bool.false_ne_true
        cases hbw : decide (tok > 10 ∧ dur > 10) with
        | true =>
          refine ⟨["B is less efficient overall."], ?_, ?_⟩
          · simp only [generate_efficiency_recommendation]
            rw [if_neg h, if_pos hT, if_pos hU, if_neg (by simp), if_neg hbbn,
              if_pos hbw]
            rfl
          · intro p hp
            rw [List.mem_singleton] at hp
            subst hp
            exact ⟨by decide, by decide⟩
        | false =>
          have hbwn : ¬ (decide (tok > 10 ∧ dur > 10) = true) := by
            rw [hbw]
            exact Bool.false_ne_true
          refine ⟨[], ?_, by simp⟩
          simp only [generate_efficiency_recommendation]
          rw [if_neg h, if_pos hT, if_pos hU, if_neg (by simp), if_neg hbbn,
            if_neg hbwn]
          rfl
    obtain ⟨rest, hrec, hrest⟩ := hshape
    rw [hrec]
    refine ⟨⟨fun _ => hT, fun _ => ?_⟩, ⟨fun _ => hU, fun _ => ?_⟩,
      ⟨?_, ?_⟩, ?_⟩
    · exact infix_joinSpace_of_mem _ (tokensPart tok (pSignificant pT)) (by simp)
        (tokens_infix_tokensPart tok (pSignificant pT))
    · rcases fastslow_infix_durationPart dur (pSignificant pD) with hf | hs
      · exact Or.inl (infix_joinSpace_of_mem _ (durationPart dur (pSignificant pD))
          (by simp) hf)
      · exact Or.inr (infix_joinSpace_of_mem _ (durationPart dur (pSignificant pD))
          (by simp) hs)
    · intro hinf
      by_contra hc
      push_neg at hc
      have hsTf : pSignificant pT = false := Bool.eq_false_iff.mpr (hc.1 hT)
      have hsUf : pSignificant pD = false := Bool.eq_false_iff.mpr (hc.2 hU)
      have hparen : '(' ∈ (joinSpace (tokensPart tok (pSignificant pT) ::
          durationPart dur (pSignificant pD) :: rest)).data :=
        hinf.subset (by decide)
      rcases mem_joinSpace_chars _ hparen with hsp | ⟨p, hp, hcp⟩
      · exact absurd hsp (by decide)
      · rcases List.mem_cons.mp hp with rfl | hp2
        · rw [hsTf] at hcp
          exact paren_not_mem_tokensPart tok hcp
        · rcases List.mem_cons.mp hp2 with rfl | hp3
          · rw [hsUf] at hcp
            exact paren_not_mem_durationPart dur hcp
          · exact (hrest p hp3).1 hcp
    · rintro (⟨_, hs⟩ | ⟨_, hs⟩)
      · rw [hs]
        exact infix_joinSpace_of_mem _ (tokensPart tok true) (by simp)
          (signote_infix_tokensPart tok)
      · rw [hs]
        exact infix_joinSpace_of_mem _ (durationPart dur true) (by simp)
          (signote_infix_durationPart dur)
    · intro hmem
      rcases mem_joinSpace_chars _ hmem with hsp | ⟨p, hp, hcp⟩
      · exact absurd hsp (by decide)
      · rcases List.mem_cons.mp hp with rfl | hp2
        · exact star_not_mem_tokensPart tok _ hcp
        · rcases List.mem_cons.mp hp2 with rfl | hp3
          · exact star_not_mem_durationPart dur _ hcp
          · exact (hrest p hp3).2 hcp
  · -- only tokens mentioned
    have hbbn : ¬ (decide (tok < -10 ∧ dur < -10) = true) := by
      rw [decide_eq_true_eq]
      rintro ⟨_, hd⟩
      exact hU (lt_abs.mpr (Or.inr (by linarith)))
    have hbwn : ¬ (decide (tok > 10 ∧ dur > 10) = true) := by
      rw [decide_eq_true_eq]
      rintro ⟨_, hd⟩
      exact hU (lt_abs.mpr (Or.inl hd))
    have hrec : generate_efficiency_recommendation tok dur pT pD na nb =
        tokensPart tok (pSignificant pT) := by
      simp only [generate_efficiency_recommendation]
      rw [if_neg h, if_pos hT, if_neg hU, List.append_nil, if_neg (by simp),
        if_neg hbbn, if_neg hbwn]
      rfl
    rw [hrec]
    refine ⟨⟨fun _ => hT, fun _ => tokens_infix_tokensPart tok _⟩,
      ⟨?_, fun hx => absurd hx hU⟩, ⟨?_, ?_⟩,
      star_not_mem_tokensPart tok _⟩
    · rintro (hinf | hinf)
      · exact absurd hinf (faster_not_infix_tokensPart tok _)
      · exact absurd hinf (slower_not_infix_tokensPart tok _)
    · intro hinf
      cases hsT : pSignificant pT with
      | true => exact Or.inl ⟨hT, rfl⟩
      | false =>
        rw [hsT] at hinf
        exact absurd (hinf.subset (by decide)) (paren_not_mem_tokensPart tok)
    · rintro (⟨_, hs⟩ | ⟨hu, _⟩)
      · rw [hs]
        exact signote_infix_tokensPart tok
      · exact absurd hu hU
  · -- only duration mentioned
    have hbbn : ¬ (decide (tok < -10 ∧ dur < -10) = true) := by
      rw [decide_eq_true_eq]
      rintro ⟨hd, _⟩
      exact hT (lt_abs.mpr (Or.inr (by linarith)))
    have hbwn : ¬ (decide (tok > 10 ∧ dur > 10) = true) := by
      rw [decide_eq_true_eq]
      rintro ⟨hd, _⟩
      exact hT (lt_abs.mpr (Or.inl hd))
    have hrec : generate_efficiency_recommendation tok dur pT pD na nb =
        durationPart dur (pSignificant pD) := by
      simp only [generate_efficiency_recommendation]
      rw [if_neg h, if_neg hT, if_pos hU, List.nil_append, if_neg (by simp),
        if_neg hbbn, if_neg hbwn]
      rfl
    rw [hrec]
    refine ⟨⟨?_, fun hx => absurd hx hT⟩,
      ⟨fun _ => hU, fun _ => fastslow_infix_durationPart dur _⟩, ⟨?_, ?_⟩,
      star_not_mem_durationPart dur _⟩
    · intro hinf
      exact absurd (hinf.subset (by decide)) (k_not_mem_durationPart dur _)
    · intro hinf
      cases hsU : pSignificant pD with
      | true => exact Or.inr ⟨hU, rfl⟩
      | false =>
        rw [hsU] at hinf
        exact absurd (hinf.subset (by decide)) (paren_not_mem_durationPart dur)
    · rintro (⟨ht, _⟩ | ⟨_, hs⟩)
      · exact absurd ht hT
      · rw [hs]
        exact signote_infix_durationPart dur
  · -- neither metric mentioned
    have hrec : generate_efficiency_recommendation tok dur pT pD na nb =
        "No significant efficiency differences detected between configurations." := by
      simp only [generate_efficiency_recommendation]
      rw [if_neg h, if_neg hT, if_neg hU]
      simp
    rw [hrec]
    refine ⟨⟨fun hinf => absurd hinf (by decide), fun hx => absurd hx hT⟩,
      ⟨?_, fun hx => absurd hx hU⟩,
      ⟨fun hinf => absurd hinf (by decide), ?_⟩, by decide⟩
    · rintro (hinf | hinf)
      · exact absurd hinf (by decide)
      · exact absurd hinf (by decide)
    · rintro (⟨ht, _⟩ | ⟨hu, _⟩)
      · exact absurd ht hT
      · exact absurd hu hU

/-- The recommendation field of `compare_efficiency` is exactly the
generated recommendation at the computed deltas, p-values and sizes. -/
theorem compare_efficiency_recommendation_eq (mwP : List ℚ → List ℚ → Option ℚ)
    (A B : List EvalResult) :
    (compare_efficiency mwP A B).recommendation =
      generate_efficiency_recommendation
        (compare_efficiency mwP A B).tokens_delta_pct
        (compare_efficiency mwP A B).duration_delta_pct
        (compare_efficiency mwP A B).tokens_p_value
        (compare_efficiency mwP A B).duration_p_value A.length B.length := rfl

/-- C4 counterexample: two-per-group samples where config B uses 100% more
tokens and the Mann-Whitney oracle reports p = 0.001 < 0.01 — the
recommendation mentions tokens but contains no asterisk at all (the
claimed single/double asterisk flags do not exist in it). -/
theorem compare_efficiency_no_asterisk :
    (compare_efficiency (fun _ _ => some (1/1000)) effA effB).tokens_p_value =
      some (1/1000) ∧
    (1/1000 : ℚ) < 1/100 ∧
    "tokens".data <:+:
      (compare_efficiency (fun _ _ => some (1/1000)) effA effB).recommendation.data ∧
    '*' ∉
      (compare_efficiency (fun _ _ => some (1/1000)) effA effB).recommendation.data := by
  have hpT : (compare_efficiency (fun _ _ => some (1/1000)) effA effB).tokens_p_value =
      some (1/1000) := by
    simp [compare_efficiency, effA, effB]
  have hpD : (compare_efficiency (fun _ _ => some (1/1000)) effA effB).duration_p_value =
      some (1/1000) := by
    simp [compare_efficiency, effA, effB]
  have htok : (compare_efficiency (fun _ _ => some (1/1000)) effA effB).tokens_delta_pct =
      100 := by
    simp only [compare_efficiency, effA, effB, effResult, EvalResult.total_tokens,
      listMean]
    norm_num
  have hdur : (compare_efficiency
      (fun _ _ => some (1/1000)) effA effB).duration_delta_pct = 0 := by
    simp only [compare_efficiency, effA, effB, effResult, EvalResult.total_tokens,
      listMean]
    norm_num
  have hrec := compare_efficiency_recommendation_eq (fun _ _ => some (1/1000)) effA effB
  rw [hpT, hpD, htok, hdur] at hrec
  have hspec := gen_eff_rec_spec 100 0 (some (1/1000)) (some (1/1000))
    effA.length effB.length (by decide)
  refine ⟨hpT, by norm_num, ?_, ?_⟩
  · rw [hrec]
    exact hspec.1.mpr (by norm_num)
  · rw [hrec]
    exact hspec.2.2.2

/-- C4 (amended): with fewer than 2 samples in either group the
recommendation states insufficient samples; with adequate samples each
metric is mentioned exactly when its absolute mean delta percentage
exceeds 10, a mentioned metric whose Mann-Whitney p-value is below 0.05 is
annotated with the phrase statistically significant (with no distinct
marking at p < 0.01), and the recommendation never contains an asterisk —
asterisk flags appear only in the reporter's printed efficiency table. -/
theorem compare_efficiency_recommendation_spec (mwP : List ℚ → List ℚ → Option ℚ)
    (A B : List EvalResult) :
    ((A.length < 2 ∨ B.length < 2) →
      (compare_efficiency mwP A B).recommendation =
        "Insufficient samples for efficiency comparison (need at least 2 per group)." ∧
      '*' ∉ (compare_efficiency mwP A B).recommendation.data) ∧
    (2 ≤ A.length → 2 ≤ B.length →
      ("tokens".data <:+: (compare_efficiency mwP A B).recommendation.data ↔
        |(compare_efficiency mwP A B).tokens_delta_pct| > 10) ∧
      (("faster".data <:+: (compare_efficiency mwP A B).recommendation.data ∨
        "slower".data <:+: (compare_efficiency mwP A B).recommendation.data) ↔
        |(compare_efficiency mwP A B).duration_delta_pct| > 10) ∧
      ("(statistically significant)".data <:+:
          (compare_efficiency mwP A B).recommendation.data ↔
        ((|(compare_efficiency mwP A B).tokens_delta_pct| > 10 ∧
            pSignificant (compare_efficiency mwP A B).tokens_p_value = true) ∨
          (|(compare_efficiency mwP A B).duration_delta_pct| > 10 ∧
            pSignificant (compare_efficiency mwP A B).duration_p_value = true))) ∧
      '*' ∉ (compare_efficiency mwP A B).recommendation.data) := by
  constructor
  · intro hlt
    have h2 : min A.length B.length < 2 := by
      rcases hlt with hl | hl
      · exact Nat.lt_of_le_of_lt (Nat.min_le_left _ _) hl
      · exact Nat.lt_of_le_of_lt (Nat.min_le_right _ _) hl
    have hrec : (compare_efficiency mwP A B).recommendation =
        "Insufficient samples for efficiency comparison (need at least 2 per group)." := by
      rw [compare_efficiency_recommendation_eq]
      simp only [generate_efficiency_recommendation]
      rw [if_pos h2]
    exact ⟨hrec, by rw [hrec]; decide⟩
  · intro h2a h2b
    have hmin : ¬ min A.length B.length < 2 := by
      rw [not_lt]
      exact le_min h2a h2b
    rw [compare_efficiency_recommendation_eq]
    exact gen_eff_rec_spec _ _ _ _ A.length B.length hmin

/-- C4 witness: the two-per-group token samples — the tokens mention
equivalence holds concretely with a 100% token delta. -/
theorem compare_efficiency_recommendation_spec_witness :
    2 ≤ effA.length ∧ 2 ≤ effB.length ∧
    ("tokens".data <:+:
        (compare_efficiency (fun _ _ => some (1/50)) effA effB).recommendation.data ↔
      |(compare_efficiency (fun _ _ => some (1/50)) effA effB).tokens_delta_pct| > 10) :=
  ⟨by decide, by decide,
    ((compare_efficiency_recommendation_spec (fun _ _ => some (1/50)) effA effB).2
      (by decide) (by decide)).1⟩

end Harness
